import Mathlib

/-!
Shallow embedding of `push_notifications/models.py` (django-push-notifications,
dispatch core): device data model, notification-record creation, the
provider-specific single and bulk send paths, and the mixed-provider grouped
bulk dispatch.  Sends are modelled as pure functions producing the ordered
trace of observable effects (notification-record creations and provider
network calls) together with the Python return value.
-/

set_option autoImplicit false

namespace PushNotifications

/-- Provider tag `Device.APNS = 0` (models.py line 61). -/
def Device.APNS : Nat := 0

/-- Provider tag `Device.GCM = 1` (models.py line 62). -/
def Device.GCM : Nat := 1

/-- One row of the `Device` table (models.py lines 60-80): primary key plus the
declared fields `name`, `active`, `user`, `date_created`, `device_id`,
`registration_id`, `device_type`. -/
structure Device where
  pk : Nat
  name : Option String
  active : Bool
  user : Option Nat
  date_created : Nat
  device_id : Option String
  registration_id : String
  device_type : Nat
  deriving DecidableEq, Repr

/-- The `editable=False` flag on the `device_type` field (models.py line 80):
the provider tag is not directly editable by callers. -/
def Device.device_type_editable : Bool := false

/-- A Python `**kwargs` mapping as the send paths use it: the distinguished
`extra` keyword (a free-form string mapping, when passed) and the remaining
keyword arguments.  `kwargs.pop("extra", {})` reads the `extra` component and
leaves `rest`. -/
structure Kwargs where
  extra : Option (List (String × String))
  rest : List (String × String)
  deriving DecidableEq, Repr

/-- A `Notification` row (models.py lines 22-36): the linked device pks, the
message body, and the keyword arguments as serialized by `json.dumps(kwargs)`
(kept structurally; serialization is a deterministic function of the mapping).
`Notification.create_notification_for(devices, message, **kwargs)` saves the
row and links every target device to it. -/
structure Notification where
  devices : List Nat
  message : Option String
  kwargs : Kwargs
  deriving DecidableEq, Repr

/-- `Notification.create_notification_for` (models.py lines 28-36). -/
def Notification.create_notification_for (devices : List Nat)
    (message : Option String) (kwargs : Kwargs) : Notification :=
  Notification.mk devices message kwargs

/-- An outbound provider network call, with the exact arguments handed to the
provider client functions `apns_send_message`, `apns_send_bulk_message`,
`gcm_send_message`, `gcm_send_bulk_message`. -/
inductive ProviderCall where
  | apnsSingle (registration_id : String) (alert : Option String) (kwargs : Kwargs)
  | apnsBulk (registration_ids : List String) (alert : Option String) (kwargs : Kwargs)
  | gcmSingle (registration_id : String) (data : List (String × String)) (kwargs : Kwargs)
  | gcmBulk (registration_ids : List String) (data : List (String × String)) (kwargs : Kwargs)
  deriving DecidableEq, Repr

/-- Whether a provider call is one of the single-device endpoints. -/
def ProviderCall.isSingle : ProviderCall → Bool
  | ProviderCall.apnsSingle _ _ _ => true
  | ProviderCall.gcmSingle _ _ _ => true
  | _ => false

/-- An observable effect of a send operation, in execution order. -/
inductive Event where
  | createNotification (n : Notification)
  | providerCall (c : ProviderCall)
  deriving DecidableEq, Repr

/-- The notification records created along a trace, in order. -/
def createdNotifs (tr : List Event) : List Notification :=
  tr.filterMap (fun e =>
    match e with
    | Event.createNotification n => some n
    | Event.providerCall _ => none)

/-- The provider calls made along a trace, in order. -/
def madeCalls (tr : List Event) : List ProviderCall :=
  tr.filterMap (fun e =>
    match e with
    | Event.createNotification _ => none
    | Event.providerCall c => some c)

/-- Python dict assignment `d[key] = val`: replace in place when the key is
present, append otherwise. -/
def dictSet (d : List (String × String)) (key val : String) :
    List (String × String) :=
  if d.any (fun p => p.1 == key) then
    d.map (fun p => if p.1 == key then (p.1, val) else p)
  else d ++ [(key, val)]

/-- The GCM `data` payload: `data = kwargs.pop("extra", {})` followed by
`if message is not None: data["message"] = message` (models.py lines 111-113
and 138-140). -/
def gcmData (message : Option String) (extra : List (String × String)) :
    List (String × String) :=
  match message with
  | some m => dictSet extra "message" m
  | none => extra

/-- `GCMDeviceQuerySet.send_message` (models.py lines 104-116): on a non-empty
queryset, create one notification for the whole queryset, pop `extra`, merge
the message into it under `"message"`, collect the registration ids of the
`active=True` devices, and make one `gcm_send_bulk_message` call; on an empty
queryset do nothing and return `None`. -/
def GCMDeviceQuerySet.send_message (self : List Device) (message : Option String)
    (kwargs : Kwargs) : List Event × Option ProviderCall :=
  if self.isEmpty then ([], none)
  else
    let n := Notification.create_notification_for (self.map (fun d => d.pk)) message kwargs
    let data := gcmData message (kwargs.extra.getD [])
    let reg_ids := (self.filter (fun d => d.active)).map (fun d => d.registration_id)
    let call := ProviderCall.gcmBulk reg_ids data (Kwargs.mk none kwargs.rest)
    ([Event.createNotification n, Event.providerCall call], some call)

/-- `APNSDeviceQuerySet.send_message` (models.py lines 149-157): on a non-empty
queryset, create one notification for the whole queryset, collect the
registration ids of the `active=True` devices, and make one
`apns_send_bulk_message` call with `alert=message` and the keyword arguments
forwarded unchanged (no `extra` extraction happens on this path); on an empty
queryset do nothing and return `None`. -/
def APNSDeviceQuerySet.send_message (self : List Device) (message : Option String)
    (kwargs : Kwargs) : List Event × Option ProviderCall :=
  if self.isEmpty then ([], none)
  else
    let n := Notification.create_notification_for (self.map (fun d => d.pk)) message kwargs
    let reg_ids := (self.filter (fun d => d.active)).map (fun d => d.registration_id)
    let call := ProviderCall.apnsBulk reg_ids message kwargs
    ([Event.createNotification n, Event.providerCall call], some call)

/-- `GCMDevice.send_message` (models.py lines 133-141): the
`super(GCMDevice, self).send_message` call lands in `Device.send_message` with
`self.__class__ != Device`, creating the notification for this one device;
then pop `extra`, merge the message, and make one `gcm_send_message` call. -/
def GCMDevice.send_message (self : Device) (message : Option String)
    (kwargs : Kwargs) : List Event × Option ProviderCall :=
  let n := Notification.create_notification_for [self.pk] message kwargs
  let data := gcmData message (kwargs.extra.getD [])
  let call := ProviderCall.gcmSingle self.registration_id data (Kwargs.mk none kwargs.rest)
  ([Event.createNotification n, Event.providerCall call], some call)

/-- `APNSDevice.send_message` (models.py lines 171-174): create the
notification for this one device via the same `super` route, then make one
`apns_send_message` call with `alert=message` and the keyword arguments
forwarded unchanged. -/
def APNSDevice.send_message (self : Device) (message : Option String)
    (kwargs : Kwargs) : List Event × Option ProviderCall :=
  let n := Notification.create_notification_for [self.pk] message kwargs
  let call := ProviderCall.apnsSingle self.registration_id message kwargs
  ([Event.createNotification n, Event.providerCall call], some call)

/-- `Device.send_message` on a plain `Device` instance (models.py lines
82-91): reassign `self.__class__` to `APNSDevice` when `device_type ==
Device.APNS` and to `GCMDevice` otherwise, then re-dispatch; the result of the
recursive call is not returned, so the generic path returns `None`. -/
def Device.send_message (self : Device) (message : Option String)
    (kwargs : Kwargs) : List Event × Option ProviderCall :=
  let r :=
    if self.device_type == Device.APNS then APNSDevice.send_message self message kwargs
    else GCMDevice.send_message self message kwargs
  (r.1, none)

/-- The two concrete device models the dispatcher can resolve to. -/
inductive DeviceModel where
  | apns
  | gcm
  deriving DecidableEq, Repr

/-- `get_device_model_by_type` (models.py lines 13-19). -/
def get_device_model_by_type (device_type : Nat) : Option DeviceModel :=
  if device_type == Device.APNS then some DeviceModel.apns
  else if device_type == Device.GCM then some DeviceModel.gcm
  else none

/-- `device_model.objects.filter(id__in=ids)`: the provider-scoped manager
first restricts the device table to rows whose `device_type` matches the model
(models.py lines 100-101 and 145-146), then filters to the given primary
keys. -/
def modelScopedFilter (registry : List Device) (m : DeviceModel) (ids : List Nat) :
    List Device :=
  match m with
  | DeviceModel.apns =>
      (registry.filter (fun d => d.device_type == Device.APNS)).filter
        (fun d => ids.contains d.pk)
  | DeviceModel.gcm =>
      (registry.filter (fun d => d.device_type == Device.GCM)).filter
        (fun d => ids.contains d.pk)

/-- Dispatch of the bulk send to the resolved model's queryset method. -/
def modelBulkSend (m : DeviceModel) (qs : List Device) (message : Option String)
    (kwargs : Kwargs) : List Event × Option ProviderCall :=
  match m with
  | DeviceModel.apns => APNSDeviceQuerySet.send_message qs message kwargs
  | DeviceModel.gcm => GCMDeviceQuerySet.send_message qs message kwargs

/-- One step of the Python dict build
`devices[device_type] = devices.get(device_type, []) + [id]`
(models.py line 52): append to the existing bucket in place, or add a fresh
bucket at the end. -/
def groupInsert (acc : List (Nat × List Nat)) (t : Nat) (id : Nat) :
    List (Nat × List Nat) :=
  if acc.any (fun p => p.1 == t) then
    acc.map (fun p => if p.1 == t then (p.1, p.2 ++ [id]) else p)
  else acc ++ [(t, [id])]

/-- The grouping loop of `DeviceQuerySet.send_message` (models.py lines
49-52) over the `(pk, device_type)` pairs. -/
def groupByType (pairs : List (Nat × Nat)) : List (Nat × List Nat) :=
  pairs.foldl (fun acc p => groupInsert acc p.2 p.1) []

/-- First-occurrence-order deduplication of a list of provider tags: the key
order of a Python dict built by repeated insertion, used to characterize
`groupByType`. -/
def dedupFirst (xs : List Nat) : List Nat :=
  xs.foldl (fun acc t => if acc.contains t then acc else acc ++ [t]) []

/-- Closed form of `groupByType`: one bucket per distinct provider tag in
first-occurrence order, each holding that tag's pks in input order (proved
equal to `groupByType` below). -/
def bucketsOf (pairs : List (Nat × Nat)) : List (Nat × List Nat) :=
  (dedupFirst (pairs.map (fun p => p.2))).map
    (fun t => (t, (pairs.filter (fun p => p.2 == t)).map (fun p => p.1)))

/-- The provider-scoped restriction of a device collection: the devices
carrying the given provider tag (the view the provider-scoped managers expose,
models.py lines 100-101 and 145-146). -/
def scopedByType (qs : List Device) (t : Nat) : List Device :=
  qs.filter (fun d => d.device_type == t)

/-- The dispatch loop of `DeviceQuerySet.send_message` (models.py lines
54-56): for each bucket, resolve the model with `get_device_model_by_type`;
a `None` model aborts with `AttributeError` (Python evaluates
`None.objects`), leaving earlier buckets' effects in place; otherwise requery
the provider-scoped collection restricted to the bucket ids and invoke its
bulk send. -/
def dispatchGroups (registry : List Device) (message : Option String)
    (kwargs : Kwargs) : List (Nat × List Nat) → List Event × Option String
  | [] => ([], none)
  | g :: rest =>
    match get_device_model_by_type g.1 with
    | none => ([], some "AttributeError")
    | some m =>
      let sub := modelScopedFilter registry m g.2
      let r := modelBulkSend m sub message kwargs
      let r2 := dispatchGroups registry message kwargs rest
      (r.1 ++ r2.1, r2.2)

/-- `DeviceQuerySet.send_message` (models.py lines 46-56): on a non-empty
queryset, group the `(pk, device_type)` pairs by provider tag and dispatch
each bucket; on an empty queryset do nothing.  `registry` is the underlying
`Device` table that `device_model.objects` requeries.  The second component is
`none` on normal completion and carries the raised error otherwise. -/
def DeviceQuerySet.send_message (registry : List Device) (self : List Device)
    (message : Option String) (kwargs : Kwargs) : List Event × Option String :=
  if self.isEmpty then ([], none)
  else
    dispatchGroups registry message kwargs
      (groupByType (self.map (fun d => (d.pk, d.device_type))))

/-- `GCMDevice.save` (models.py lines 129-131): force the provider tag to
`Device.GCM`, then persist. -/
def GCMDevice.save (self : Device) : Device :=
  { self with device_type := Device.GCM }

/-- `APNSDevice.save` (models.py lines 167-169): force the provider tag to
`Device.APNS`, then persist. -/
def APNSDevice.save (self : Device) : Device :=
  { self with device_type := Device.APNS }

/-- The persistent state the dispatch core touches: the device table, the
notification log, and the log of outbound provider calls. -/
structure World where
  devices : List Device
  notifications : List Notification
  calls : List ProviderCall
  deriving DecidableEq, Repr

/-- Effect of one event on the persistent state: a record creation appends to
the notification log, a provider call appends to the call log; neither writes
the device table. -/
def applyEvent (w : World) (e : Event) : World :=
  match e with
  | Event.createNotification n =>
      World.mk w.devices (w.notifications ++ [n]) w.calls
  | Event.providerCall c =>
      World.mk w.devices w.notifications (w.calls ++ [c])

/-- Replay a trace of events against a state. -/
def runTrace (w : World) (tr : List Event) : World :=
  tr.foldl applyEvent w

/-- Audit-first discipline of a trace: every provider call is strictly
preceded by a record creation, and at the instant the call runs the state
already contains every record created so far (so a raise at the call leaves
them in place). -/
def auditFirst (tr : List Event) : Prop :=
  ∀ pre c rest, tr = pre ++ Event.providerCall c :: rest →
    createdNotifs pre ≠ [] ∧
    ∀ w, (runTrace w (pre ++ [Event.providerCall c])).notifications =
      w.notifications ++ createdNotifs pre

/-- Concrete fixture: an active Apple device. -/
def devA : Device := Device.mk 1 none true none 0 none "regA" Device.APNS

/-- Concrete fixture: an inactive Apple device. -/
def devA2 : Device := Device.mk 3 none false none 0 none "regA2" Device.APNS

/-- Concrete fixture: an active Google device. -/
def devG : Device := Device.mk 2 none true none 0 none "regG" Device.GCM

/-- Concrete fixture: an inactive Google device. -/
def devG2 : Device := Device.mk 4 none false none 0 none "regG2" Device.GCM

/-- Concrete fixture: a device with an unrecognized provider tag. -/
def devX : Device := Device.mk 5 none true none 0 none "regX" 7

/-- Concrete fixture: empty keyword arguments. -/
def kw0 : Kwargs := Kwargs.mk none []

/-- Concrete fixture: keyword arguments carrying an `extra` mapping and one
further keyword. -/
def kwE : Kwargs := Kwargs.mk (some [("sound", "default")]) [("badge", "1")]

theorem createdNotifs_append (t1 t2 : List Event) :
    createdNotifs (t1 ++ t2) = createdNotifs t1 ++ createdNotifs t2 := by
  simp [createdNotifs]

theorem runTrace_devices (w : World) (tr : List Event) :
    (runTrace w tr).devices = w.devices := by
  induction tr generalizing w with
  | nil => rfl
  | cons e rest ih =>
    cases e with
    | createNotification n => exact ih (applyEvent w (Event.createNotification n))
    | providerCall c => exact ih (applyEvent w (Event.providerCall c))

theorem runTrace_notifications (w : World) (tr : List Event) :
    (runTrace w tr).notifications = w.notifications ++ createdNotifs tr := by
  induction tr generalizing w with
  | nil => simp [runTrace, createdNotifs]
  | cons e rest ih =>
    have step : runTrace w (e :: rest) = runTrace (applyEvent w e) rest := rfl
    rw [step, ih]
    cases e with
    | createNotification n => simp [applyEvent, createdNotifs]
    | providerCall c => simp [applyEvent, createdNotifs]

theorem auditFirst_of_pre (tr : List Event)
    (h : ∀ pre c rest, tr = pre ++ Event.providerCall c :: rest →
      createdNotifs pre ≠ []) : auditFirst tr := by
  intro pre c rest hd
  refine ⟨h pre c rest hd, fun w => ?_⟩
  simp [runTrace_notifications, createdNotifs_append, createdNotifs]

theorem auditFirst_nil : auditFirst [] := by
  apply auditFirst_of_pre
  intro pre c rest hd
  exact absurd hd (by simp)

theorem auditFirst_cons_create (n : Notification) (tr : List Event) :
    auditFirst (Event.createNotification n :: tr) := by
  apply auditFirst_of_pre
  intro pre c rest hd
  cases pre with
  | nil => simp at hd
  | cons e p =>
    rw [List.cons_append, List.cons.injEq] at hd
    rw [← hd.1]
    simp [createdNotifs]

theorem modelBulkSend_shape (dm : DeviceModel) (qs : List Device)
    (m : Option String) (k : Kwargs) :
    (modelBulkSend dm qs m k).1 = [] ∨
    ∃ n t, (modelBulkSend dm qs m k).1 = Event.createNotification n :: t := by
  cases dm with
  | apns =>
    by_cases hE : qs.isEmpty
    · left
      simp [modelBulkSend, APNSDeviceQuerySet.send_message, hE]
    · right
      have h : (modelBulkSend DeviceModel.apns qs m k).1 =
          [Event.createNotification
            (Notification.create_notification_for (qs.map (fun d => d.pk)) m k),
          Event.providerCall (ProviderCall.apnsBulk
            ((qs.filter (fun d => d.active)).map (fun d => d.registration_id)) m k)] := by
        simp [modelBulkSend, APNSDeviceQuerySet.send_message, hE]
      exact ⟨_, _, h⟩
  | gcm =>
    by_cases hE : qs.isEmpty
    · left
      simp [modelBulkSend, GCMDeviceQuerySet.send_message, hE]
    · right
      have h : (modelBulkSend DeviceModel.gcm qs m k).1 =
          [Event.createNotification
            (Notification.create_notification_for (qs.map (fun d => d.pk)) m k),
          Event.providerCall (ProviderCall.gcmBulk
            ((qs.filter (fun d => d.active)).map (fun d => d.registration_id))
            (gcmData m (k.extra.getD [])) (Kwargs.mk none k.rest))] := by
        simp [modelBulkSend, GCMDeviceQuerySet.send_message, hE]
      exact ⟨_, _, h⟩

theorem dispatchGroups_auditFirst (registry : List Device) (m : Option String)
    (k : Kwargs) : ∀ gs, auditFirst (dispatchGroups registry m k gs).1 := by
  intro gs
  induction gs with
  | nil => exact auditFirst_nil
  | cons g rest ih =>
    cases hm : get_device_model_by_type g.1 with
    | none =>
      simp only [dispatchGroups, hm]
      exact auditFirst_nil
    | some dm =>
      simp only [dispatchGroups, hm]
      rcases modelBulkSend_shape dm (modelScopedFilter registry dm g.2) m k with h | ⟨n, t, h⟩
      · rw [h]
        simpa using ih
      · rw [h, List.cons_append]
        exact auditFirst_cons_create _ _

/-- C4: on every send path — generic single, provider-specific single,
provider-scoped bulk, and mixed grouped bulk — every provider network call in
the execution trace is strictly preceded by a notification-record creation,
and at the instant the call runs (so also when it raises) the persistent
state already holds the created records, which nothing removes. -/
theorem audit_first_all_paths :
    (∀ (d : Device) (m : Option String) (k : Kwargs),
      auditFirst (Device.send_message d m k).1) ∧
    (∀ (d : Device) (m : Option String) (k : Kwargs),
      auditFirst (APNSDevice.send_message d m k).1) ∧
    (∀ (d : Device) (m : Option String) (k : Kwargs),
      auditFirst (GCMDevice.send_message d m k).1) ∧
    (∀ (qs : List Device) (m : Option String) (k : Kwargs),
      auditFirst (APNSDeviceQuerySet.send_message qs m k).1) ∧
    (∀ (qs : List Device) (m : Option String) (k : Kwargs),
      auditFirst (GCMDeviceQuerySet.send_message qs m k).1) ∧
    (∀ (registry self : List Device) (m : Option String) (k : Kwargs),
      auditFirst (DeviceQuerySet.send_message registry self m k).1) := by
  refine ⟨?_, ?_, ?_, ?_, ?_, ?_⟩
  · intro d m k
    cases h : d.device_type == Device.APNS <;>
      · simp only [Device.send_message, h, Bool.false_eq_true, if_false, if_true,
          APNSDevice.send_message, GCMDevice.send_message]
        exact auditFirst_cons_create _ _
  · intro d m k
    exact auditFirst_cons_create _ _
  · intro d m k
    exact auditFirst_cons_create _ _
  · intro qs m k
    by_cases hE : qs.isEmpty
    · simp only [APNSDeviceQuerySet.send_message, hE, if_true]
      exact auditFirst_nil
    · simp only [APNSDeviceQuerySet.send_message, hE, if_false]
      exact auditFirst_cons_create _ _
  · intro qs m k
    by_cases hE : qs.isEmpty
    · simp only [GCMDeviceQuerySet.send_message, hE, if_true]
      exact auditFirst_nil
    · simp only [GCMDeviceQuerySet.send_message, hE, if_false]
      exact auditFirst_cons_create _ _
  · intro registry self m k
    by_cases hE : self.isEmpty
    · simp only [DeviceQuerySet.send_message, hE, if_true]
      exact auditFirst_nil
    · simp only [DeviceQuerySet.send_message, hE, if_false]
      exact dispatchGroups_auditFirst registry m k _

/-- C4 witness: the audit-first property at concrete sends on each path. -/
theorem audit_first_all_paths_witness :
    auditFirst (Device.send_message devX (some "hi") kw0).1 ∧
    auditFirst (APNSDeviceQuerySet.send_message [devA, devG] (some "hi") kwE).1 ∧
    auditFirst (DeviceQuerySet.send_message [devA, devG] [devA, devG] (some "hi") kwE).1 :=
  ⟨audit_first_all_paths.1 devX (some "hi") kw0,
    audit_first_all_paths.2.2.2.1 [devA, devG] (some "hi") kwE,
    audit_first_all_paths.2.2.2.2.2 [devA, devG] [devA, devG] (some "hi") kwE⟩

/-- C6: sending to an empty device collection is a no-op on every bulk path:
no notification record, no provider call, and the return value is `None`. -/
theorem empty_send_noop :
    ∀ (registry : List Device) (m : Option String) (k : Kwargs),
      DeviceQuerySet.send_message registry [] m k = ([], none) ∧
      GCMDeviceQuerySet.send_message [] m k = ([], none) ∧
      APNSDeviceQuerySet.send_message [] m k = ([], none) := by
  intro registry m k
  exact ⟨rfl, rfl, rfl⟩

/-- C3: on a non-empty provider-scoped bulk send, the registration-id list
handed to the provider bulk endpoint is exactly the registration ids of the
`active = true` devices, while the created notification record references
every device of the original collection, inactive ones included. -/
theorem bulk_active_filter_and_record :
    ∀ (qs : List Device) (m : Option String) (k : Kwargs), qs ≠ [] →
      (createdNotifs (GCMDeviceQuerySet.send_message qs m k).1 =
          [Notification.create_notification_for (qs.map (fun d => d.pk)) m k] ∧
        (GCMDeviceQuerySet.send_message qs m k).2 =
          some (ProviderCall.gcmBulk
            ((qs.filter (fun d => d.active)).map (fun d => d.registration_id))
            (gcmData m (k.extra.getD [])) (Kwargs.mk none k.rest))) ∧
      (createdNotifs (APNSDeviceQuerySet.send_message qs m k).1 =
          [Notification.create_notification_for (qs.map (fun d => d.pk)) m k] ∧
        (APNSDeviceQuerySet.send_message qs m k).2 =
          some (ProviderCall.apnsBulk
            ((qs.filter (fun d => d.active)).map (fun d => d.registration_id)) m k)) := by
  intro qs m k h
  have hE : qs.isEmpty = false := by simp [List.isEmpty_iff, h]
  refine ⟨⟨?_, ?_⟩, ⟨?_, ?_⟩⟩ <;>
    simp [GCMDeviceQuerySet.send_message, APNSDeviceQuerySet.send_message, hE,
      createdNotifs]

/-- C3 witness: a collection with one active and one inactive Apple device. -/
theorem bulk_active_filter_and_record_witness :
    ([devA, devA2] ≠ ([] : List Device)) ∧
    ((createdNotifs (GCMDeviceQuerySet.send_message [devA, devA2] (some "hi") kw0).1 =
        [Notification.create_notification_for ([devA, devA2].map (fun d => d.pk)) (some "hi") kw0] ∧
      (GCMDeviceQuerySet.send_message [devA, devA2] (some "hi") kw0).2 =
        some (ProviderCall.gcmBulk
          (([devA, devA2].filter (fun d => d.active)).map (fun d => d.registration_id))
          (gcmData (some "hi") (kw0.extra.getD [])) (Kwargs.mk none kw0.rest))) ∧
     (createdNotifs (APNSDeviceQuerySet.send_message [devA, devA2] (some "hi") kw0).1 =
        [Notification.create_notification_for ([devA, devA2].map (fun d => d.pk)) (some "hi") kw0] ∧
      (APNSDeviceQuerySet.send_message [devA, devA2] (some "hi") kw0).2 =
        some (ProviderCall.apnsBulk
          (([devA, devA2].filter (fun d => d.active)).map (fun d => d.registration_id))
          (some "hi") kw0))) :=
  ⟨by decide, bulk_active_filter_and_record [devA, devA2] (some "hi") kw0 (by decide)⟩

/-- C5 counterexample: on the Apple-style bulk path the `extra` keyword is not
extracted; the keyword arguments forwarded to `apns_send_bulk_message` still
carry the `extra` mapping. -/
theorem apns_bulk_extra_forwarded_counterexample :
    (APNSDeviceQuerySet.send_message [devA] (some "hi") kwE).2 =
      some (ProviderCall.apnsBulk ["regA"] (some "hi") kwE) ∧
    kwE.extra ≠ none := by
  exact ⟨rfl, by decide⟩

/-- C5 (amended): on the Google-style bulk path `extra` is extracted from the
other keyword arguments and the message merged into it under `"message"`; the
Apple-style bulk path passes the message through the `alert` parameter and
forwards the keyword arguments unchanged, `extra` included. -/
theorem bulk_payload_construction :
    ∀ (qs : List Device) (m : Option String) (k : Kwargs), qs ≠ [] →
      (GCMDeviceQuerySet.send_message qs m k).2 =
        some (ProviderCall.gcmBulk
          ((qs.filter (fun d => d.active)).map (fun d => d.registration_id))
          (gcmData m (k.extra.getD [])) (Kwargs.mk none k.rest)) ∧
      (APNSDeviceQuerySet.send_message qs m k).2 =
        some (ProviderCall.apnsBulk
          ((qs.filter (fun d => d.active)).map (fun d => d.registration_id)) m k) := by
  intro qs m k h
  have hE : qs.isEmpty = false := by simp [List.isEmpty_iff, h]
  constructor <;>
    simp [GCMDeviceQuerySet.send_message, APNSDeviceQuerySet.send_message, hE]

/-- C5 witness: concrete bulk sends with an `extra` mapping present. -/
theorem bulk_payload_construction_witness :
    ([devG, devA] ≠ ([] : List Device)) ∧
    ((GCMDeviceQuerySet.send_message [devG, devA] (some "hi") kwE).2 =
      some (ProviderCall.gcmBulk
        (([devG, devA].filter (fun d => d.active)).map (fun d => d.registration_id))
        (gcmData (some "hi") (kwE.extra.getD [])) (Kwargs.mk none kwE.rest)) ∧
     (APNSDeviceQuerySet.send_message [devG, devA] (some "hi") kwE).2 =
      some (ProviderCall.apnsBulk
        (([devG, devA].filter (fun d => d.active)).map (fun d => d.registration_id))
        (some "hi") kwE)) :=
  ⟨by decide, bulk_payload_construction [devG, devA] (some "hi") kwE (by decide)⟩

/-- C2 counterexample: a device with unrecognized provider tag 7 sent through
the generic path does not fail: a notification record is created and a
Google-style single-device call is made. -/
theorem unknown_provider_counterexample :
    createdNotifs (Device.send_message devX (some "hi") kw0).1 =
      [Notification.mk [5] (some "hi") kw0] ∧
    madeCalls (Device.send_message devX (some "hi") kw0).1 =
      [ProviderCall.gcmSingle "regX" [("message", "hi")] (Kwargs.mk none [])] := by
  decide

/-- C2 (amended): a device whose provider tag is neither `Device.APNS` nor
`Device.GCM`, sent via the generic path, is resolved to the Google-style
variant: one notification record for it is created and one
`gcm_send_message` call is made; no error is raised, and the generic path
returns `None`. -/
theorem unknown_provider_treated_as_gcm :
    ∀ (d : Device) (m : Option String) (k : Kwargs),
      d.device_type ≠ Device.APNS → d.device_type ≠ Device.GCM →
      Device.send_message d m k = ((GCMDevice.send_message d m k).1, none) ∧
      createdNotifs (Device.send_message d m k).1 =
        [Notification.create_notification_for [d.pk] m k] ∧
      madeCalls (Device.send_message d m k).1 =
        [ProviderCall.gcmSingle d.registration_id (gcmData m (k.extra.getD []))
          (Kwargs.mk none k.rest)] := by
  intro d m k h1 _h2
  have hb : (d.device_type == Device.APNS) = false := beq_eq_false_iff_ne.mpr h1
  refine ⟨?_, ?_, ?_⟩ <;>
    simp [Device.send_message, hb, GCMDevice.send_message, createdNotifs, madeCalls]

/-- C2 amended-claim witness: the tag-7 fixture device. -/
theorem unknown_provider_treated_as_gcm_witness :
    (devX.device_type ≠ Device.APNS ∧ devX.device_type ≠ Device.GCM) ∧
    (Device.send_message devX (some "hi") kw0 =
        ((GCMDevice.send_message devX (some "hi") kw0).1, none) ∧
      createdNotifs (Device.send_message devX (some "hi") kw0).1 =
        [Notification.create_notification_for [devX.pk] (some "hi") kw0] ∧
      madeCalls (Device.send_message devX (some "hi") kw0).1 =
        [ProviderCall.gcmSingle devX.registration_id
          (gcmData (some "hi") (kw0.extra.getD [])) (Kwargs.mk none kw0.rest)]) :=
  ⟨⟨by decide, by decide⟩,
    unknown_provider_treated_as_gcm devX (some "hi") kw0 (by decide) (by decide)⟩

/-- C7: for a device with a recognized provider tag, the generic
(provider-unresolved) single-device path creates exactly the same
notification records as the corresponding provider-resolved path. -/
theorem generic_matches_resolved_record :
    ∀ (d : Device) (m : Option String) (k : Kwargs),
      (d.device_type = Device.APNS →
        createdNotifs (Device.send_message d m k).1 =
          createdNotifs (APNSDevice.send_message d m k).1) ∧
      (d.device_type = Device.GCM →
        createdNotifs (Device.send_message d m k).1 =
          createdNotifs (GCMDevice.send_message d m k).1) := by
  intro d m k
  constructor <;> intro h <;>
    simp [Device.send_message, h, Device.APNS, Device.GCM]

/-- C7 witness: one Apple-tagged and one Google-tagged fixture device. -/
theorem generic_matches_resolved_record_witness :
    (devA.device_type = Device.APNS ∧
      createdNotifs (Device.send_message devA (some "hi") kwE).1 =
        createdNotifs (APNSDevice.send_message devA (some "hi") kwE).1) ∧
    (devG.device_type = Device.GCM ∧
      createdNotifs (Device.send_message devG (some "hi") kwE).1 =
        createdNotifs (GCMDevice.send_message devG (some "hi") kwE).1) :=
  ⟨⟨by decide, (generic_matches_resolved_record devA (some "hi") kwE).1 (by decide)⟩,
    ⟨by decide, (generic_matches_resolved_record devG (some "hi") kwE).2 (by decide)⟩⟩

/-- C8: saving through a provider-specific variant stores that variant's
provider tag regardless of the tag's previous value, touches no other field,
and the `device_type` column is not editable by callers. -/
theorem save_sets_provider_tag :
    ∀ d : Device,
      (GCMDevice.save d).device_type = Device.GCM ∧
      (APNSDevice.save d).device_type = Device.APNS ∧
      (GCMDevice.save d).pk = d.pk ∧
      (GCMDevice.save d).name = d.name ∧
      (GCMDevice.save d).active = d.active ∧
      (GCMDevice.save d).user = d.user ∧
      (GCMDevice.save d).date_created = d.date_created ∧
      (GCMDevice.save d).device_id = d.device_id ∧
      (GCMDevice.save d).registration_id = d.registration_id ∧
      (APNSDevice.save d).pk = d.pk ∧
      (APNSDevice.save d).name = d.name ∧
      (APNSDevice.save d).active = d.active ∧
      (APNSDevice.save d).user = d.user ∧
      (APNSDevice.save d).date_created = d.date_created ∧
      (APNSDevice.save d).device_id = d.device_id ∧
      (APNSDevice.save d).registration_id = d.registration_id ∧
      Device.device_type_editable = false := by
  intro d
  refine ⟨rfl, rfl, rfl, rfl, rfl, rfl, rfl, rfl, rfl, rfl, rfl, rfl, rfl,
    rfl, rfl, rfl, rfl⟩

/-- C9: no send path writes the device table: replaying any prefix of any send
trace (so also the state left behind by a raise part-way through) leaves the
stored devices unchanged. -/
theorem send_preserves_devices :
    ∀ (w : World) (i : Nat) (registry self : List Device) (d : Device)
      (m : Option String) (k : Kwargs),
      (runTrace w ((Device.send_message d m k).1.take i)).devices = w.devices ∧
      (runTrace w ((APNSDevice.send_message d m k).1.take i)).devices = w.devices ∧
      (runTrace w ((GCMDevice.send_message d m k).1.take i)).devices = w.devices ∧
      (runTrace w ((APNSDeviceQuerySet.send_message self m k).1.take i)).devices = w.devices ∧
      (runTrace w ((GCMDeviceQuerySet.send_message self m k).1.take i)).devices = w.devices ∧
      (runTrace w ((DeviceQuerySet.send_message registry self m k).1.take i)).devices = w.devices := by
  intro w i registry self d m k
  exact ⟨runTrace_devices w _, runTrace_devices w _, runTrace_devices w _,
    runTrace_devices w _, runTrace_devices w _, runTrace_devices w _⟩

theorem dedupFirst_append_single (xs : List Nat) (x : Nat) :
    dedupFirst (xs ++ [x]) =
      if (dedupFirst xs).contains x then dedupFirst xs else dedupFirst xs ++ [x] := by
  simp only [dedupFirst, List.foldl_append, List.foldl_cons, List.foldl_nil]

theorem any_map_general {α β : Type} (l : List α) (f : α → β) (p : β → Bool) :
    (l.map f).any p = l.any (fun a => p (f a)) := by
  induction l with
  | nil => rfl
  | cons a l ih => simp [List.any_cons, ih]

theorem mem_dedupFirst (xs : List Nat) : ∀ x, x ∈ dedupFirst xs ↔ x ∈ xs := by
  induction xs using List.reverseRecOn with
  | nil =>
    intro x
    simp [dedupFirst]
  | append_singleton ys y ih =>
    intro x
    rw [dedupFirst_append_single]
    by_cases h : (dedupFirst ys).contains y
    · rw [if_pos h]
      have hy : y ∈ ys := (ih y).mp (List.elem_iff.mp h)
      rw [ih x]
      simp only [List.mem_append, List.mem_singleton]
      constructor
      · intro hx
        exact Or.inl hx
      · rintro (hx | rfl)
        · exact hx
        · exact hy
    · rw [if_neg h]
      simp [List.mem_append, ih x]

theorem nodup_dedupFirst (xs : List Nat) : (dedupFirst xs).Nodup := by
  induction xs using List.reverseRecOn with
  | nil => simp [dedupFirst]
  | append_singleton ys y ih =>
    rw [dedupFirst_append_single]
    by_cases h : (dedupFirst ys).contains y
    · rw [if_pos h]
      exact ih
    · rw [if_neg h]
      have hy : y ∉ dedupFirst ys := fun hmem => h (List.elem_iff.mpr hmem)
      simp [List.nodup_append, ih, hy]

theorem groupByType_eq_bucketsOf (pairs : List (Nat × Nat)) :
    groupByType pairs = bucketsOf pairs := by
  induction pairs using List.reverseRecOn with
  | nil => rfl
  | append_singleton ps p ih =>
    have hstep : groupByType (ps ++ [p]) = groupInsert (groupByType ps) p.2 p.1 := by
      simp only [groupByType, List.foldl_append, List.foldl_cons, List.foldl_nil]
    rw [hstep, ih]
    have hkeys : dedupFirst ((ps ++ [p]).map (fun p => p.2)) =
        if (dedupFirst (ps.map (fun p => p.2))).contains p.2 then
          dedupFirst (ps.map (fun p => p.2))
        else dedupFirst (ps.map (fun p => p.2)) ++ [p.2] := by
      rw [List.map_append]
      exact dedupFirst_append_single _ _
    have hcond : ((dedupFirst (ps.map (fun p => p.2))).map
          (fun t => (t, (ps.filter (fun q => q.2 == t)).map (fun q => q.1)))).any
            (fun pr => pr.1 == p.2) =
        (dedupFirst (ps.map (fun p => p.2))).contains p.2 := by
      rw [any_map_general]
      rcases h : (dedupFirst (ps.map (fun p => p.2))).contains p.2 with _ | _
      · rw [h, List.any_eq_false]
        intro t ht
        show ¬ ((t, (ps.filter (fun q => q.2 == t)).map (fun q => q.1)).1 == p.2) = true
        intro hbeq
        have hteq : t = p.2 := beq_iff_eq.mp hbeq
        rw [hteq] at ht
        have hc : (dedupFirst (ps.map (fun p => p.2))).contains p.2 = true :=
          List.elem_iff.mpr ht
        rw [h] at hc
        exact absurd hc (by decide)
      · rw [h, List.any_eq_true]
        refine ⟨p.2, List.elem_iff.mp h, ?_⟩
        simp
    by_cases h : (dedupFirst (ps.map (fun p => p.2))).contains p.2
    · unfold bucketsOf groupInsert
      rw [hkeys, if_pos h, hcond, if_pos h, List.map_map]
      apply List.map_congr_left
      intro t _
      by_cases ht : t = p.2
      · subst ht
        simp [List.filter_append]
      · have h1 : (t == p.2) = false := beq_eq_false_iff_ne.mpr ht
        have h2 : (p.2 == t) = false := beq_eq_false_iff_ne.mpr (Ne.symm ht)
        simp [List.filter_append, h1, h2, Function.comp]
    · unfold bucketsOf groupInsert
      rw [hkeys, if_neg h, hcond, if_neg h]
      rw [List.map_append]
      congr 1
      · apply List.map_congr_left
        intro t ht
        have hne : t ≠ p.2 := by
          intro he
          subst he
          exact h (List.elem_iff.mpr ht)
        have h2 : (p.2 == t) = false := beq_eq_false_iff_ne.mpr (Ne.symm hne)
        simp [List.filter_append, h2]
      · have hnotin : p.2 ∉ ps.map (fun p => p.2) := by
          intro hmem
          exact h (List.elem_iff.mpr ((mem_dedupFirst _ _).mpr hmem))
        have hnil : ps.filter (fun q => q.2 == p.2) = [] := by
          rw [List.filter_eq_nil_iff]
          intro q hq hbeq
          exact hnotin (List.mem_map.mpr ⟨q, hq, beq_iff_eq.mp hbeq⟩)
        simp [List.filter_append, hnil]

theorem registry_filter_pks (S registry : List Device) (hS : S.Sublist registry)
    (hnd : (registry.map (fun d => d.pk)).Nodup) :
    registry.filter (fun d => (S.map (fun e => e.pk)).contains d.pk) = S := by
  induction hS with
  | slnil => rfl
  | @cons S l2 a hsub ih =>
    have hnd2 : (l2.map (fun d => d.pk)).Nodup := by
      rw [List.map_cons, List.nodup_cons] at hnd
      exact hnd.2
    have hnotin : a.pk ∉ l2.map (fun d => d.pk) := by
      rw [List.map_cons, List.nodup_cons] at hnd
      exact hnd.1
    have hcond : ((S.map (fun e => e.pk)).contains a.pk) = false := by
      rcases hc : (S.map (fun e => e.pk)).contains a.pk with _ | _
      · exact hc
      · have hmem : a.pk ∈ S.map (fun e => e.pk) := List.elem_iff.mp hc
        have : a.pk ∈ l2.map (fun d => d.pk) := (hsub.map (fun d => d.pk)).mem hmem
        exact absurd this hnotin
    rw [List.filter_cons, hcond]
    simp only [Bool.false_eq_true, if_false]
    exact ih hnd2
  | @cons₂ S l2 a hsub ih =>
    have hnd2 : (l2.map (fun d => d.pk)).Nodup := by
      rw [List.map_cons, List.nodup_cons] at hnd
      exact hnd.2
    have hnotin : a.pk ∉ l2.map (fun d => d.pk) := by
      rw [List.map_cons, List.nodup_cons] at hnd
      exact hnd.1
    have hcond : (((a :: S).map (fun e => e.pk)).contains a.pk) = true := by
      rw [List.map_cons]
      exact List.elem_iff.mpr (List.mem_cons_self _ _)
    rw [List.filter_cons, hcond]
    simp only [if_true]
    congr 1
    have hcongr : ∀ d ∈ l2,
        (((a :: S).map (fun e => e.pk)).contains d.pk) =
          ((S.map (fun e => e.pk)).contains d.pk) := by
      intro d hd
      have hne : d.pk ≠ a.pk := by
        intro he
        exact hnotin (he ▸ List.mem_map.mpr ⟨d, hd, rfl⟩)
      rw [List.map_cons]
      rcases hc : (S.map (fun e => e.pk)).contains d.pk with _ | _
      · rcases hc2 : ((a.pk :: S.map (fun e => e.pk)).contains d.pk) with _ | _
        · rw [hc, hc2]
        · have : d.pk ∈ a.pk :: S.map (fun e => e.pk) := List.elem_iff.mp hc2
          rcases List.mem_cons.mp this with he | hmem
          · exact absurd he hne
          · have : (S.map (fun e => e.pk)).contains d.pk = true := List.elem_iff.mpr hmem
            rw [hc] at this
            exact absurd this (by decide)
      · have hmem : d.pk ∈ S.map (fun e => e.pk) := List.elem_iff.mp hc
        rw [hc]
        exact List.elem_iff.mpr (List.mem_cons_of_mem _ hmem)
    rw [List.filter_congr hcongr]
    exact ih hnd2

theorem scoped_requery (registry self : List Device) (t : Nat)
    (hsub : self.Sublist registry) (hnd : (registry.map (fun d => d.pk)).Nodup) :
    (registry.filter (fun d => d.device_type == t)).filter
        (fun d => ((scopedByType self t).map (fun d => d.pk)).contains d.pk) =
      scopedByType self t := by
  rw [List.filter_filter]
  have hsubS : (scopedByType self t).Sublist registry :=
    (List.filter_sublist self).trans hsub
  have hpoint : ∀ d ∈ registry,
      ((((scopedByType self t).map (fun d => d.pk)).contains d.pk) &&
        (d.device_type == t)) =
      (((scopedByType self t).map (fun d => d.pk)).contains d.pk) := by
    intro d hd
    rcases hc : (((scopedByType self t).map (fun d => d.pk)).contains d.pk) with _ | _
    · rw [hc]
      rfl
    · have hmem : d.pk ∈ (scopedByType self t).map (fun d => d.pk) := List.elem_iff.mp hc
      rcases List.mem_map.mp hmem with ⟨e, he, hpk⟩
      have heR : e ∈ registry := hsubS.mem he
      have hed : e = d := List.inj_on_of_nodup_map hnd heR hd hpk
      have : d ∈ scopedByType self t := hed ▸ he
      have htype : (d.device_type == t) = true := by
        have := List.of_mem_filter this
        exact this
      rw [htype, Bool.and_true]
  rw [List.filter_congr hpoint]
  exact registry_filter_pks _ _ hsubS hnd

theorem nodup_pair_eq (l : List Nat) (a b : Nat) (hab : a ≠ b) (hn : l.Nodup)
    (hm : ∀ x, x ∈ l ↔ x = a ∨ x = b) : l = [a, b] ∨ l = [b, a] := by
  cases l with
  | nil => exact absurd ((hm a).mpr (Or.inl rfl)) (by simp)
  | cons x l2 =>
    cases l2 with
    | nil =>
      have hxa : a = x := by
        have := (hm a).mpr (Or.inl rfl)
        simpa using this
      have hxb : b = x := by
        have := (hm b).mpr (Or.inr rfl)
        simpa using this
      exact absurd (hxa.trans hxb.symm) hab
    | cons y l3 =>
      have hx : x = a ∨ x = b := (hm x).mp (by simp)
      have hy : y = a ∨ y = b := (hm y).mp (by simp)
      have hxy : x ≠ y := by
        intro h
        subst h
        simp [List.nodup_cons] at hn
      have hl3 : l3 = [] := by
        cases l3 with
        | nil => rfl
        | cons z l4 =>
          have hz : z = a ∨ z = b := (hm z).mp (by simp)
          have hzx : x ≠ z := by
            intro h
            subst h
            simp [List.nodup_cons] at hn
          have hzy : y ≠ z := by
            intro h
            subst h
            simp [List.nodup_cons] at hn
          rcases hx with rfl | rfl <;> rcases hy with rfl | rfl <;>
            rcases hz with rfl | rfl <;> simp_all
      subst hl3
      rcases hx with rfl | rfl <;> rcases hy with rfl | rfl
      · exact absurd rfl hxy
      · exact Or.inl rfl
      · exact Or.inr rfl
      · exact absurd rfl hxy

theorem dedupFirst_types01 (xs : List Nat) (h : ∀ x ∈ xs, x = Device.APNS ∨ x = Device.GCM)
    (h0 : Device.APNS ∈ xs) (h1 : Device.GCM ∈ xs) :
    dedupFirst xs = [Device.APNS, Device.GCM] ∨
    dedupFirst xs = [Device.GCM, Device.APNS] := by
  apply nodup_pair_eq _ _ _ (by decide) (nodup_dedupFirst xs)
  intro x
  rw [mem_dedupFirst xs x]
  constructor
  · exact h x
  · rintro (rfl | rfl)
    · exact h0
    · exact h1

theorem dispatchGroups_nil (registry : List Device) (m : Option String)
    (k : Kwargs) : dispatchGroups registry m k [] = ([], none) := rfl

theorem dispatchGroups_cons (registry : List Device) (m : Option String)
    (k : Kwargs) (g : Nat × List Nat) (gs : List (Nat × List Nat))
    (dm : DeviceModel) (h : get_device_model_by_type g.1 = some dm) :
    dispatchGroups registry m k (g :: gs) =
      ((modelBulkSend dm (modelScopedFilter registry dm g.2) m k).1 ++
        (dispatchGroups registry m k gs).1,
      (dispatchGroups registry m k gs).2) := by
  simp [dispatchGroups, h]

theorem dispatchGroups_err (registry : List Device) (m : Option String)
    (k : Kwargs) : ∀ gs, (dispatchGroups registry m k gs).2 = none ↔
      ∀ g ∈ gs, get_device_model_by_type g.1 ≠ none := by
  intro gs
  induction gs with
  | nil => simp [dispatchGroups]
  | cons g rest ih =>
    cases hm : get_device_model_by_type g.1 with
    | none => simp [dispatchGroups, hm]
    | some dm => simp [dispatchGroups, hm, ih]

theorem get_device_model_ne_none (t : Nat) :
    get_device_model_by_type t ≠ none ↔ t = Device.APNS ∨ t = Device.GCM := by
  simp only [get_device_model_by_type, Device.APNS, Device.GCM, beq_iff_eq]
  split_ifs with h0 h1 <;> simp_all

theorem forall_groupByType_keys (self : List Device) (Q : Nat → Prop) :
    (∀ g ∈ groupByType (self.map (fun d => (d.pk, d.device_type))), Q g.1) ↔
      ∀ d ∈ self, Q d.device_type := by
  rw [groupByType_eq_bucketsOf]
  unfold bucketsOf
  constructor
  · intro h d hd
    have ht : d.device_type ∈
        dedupFirst ((self.map (fun d => (d.pk, d.device_type))).map (fun p => p.2)) := by
      rw [mem_dedupFirst]
      simp only [List.map_map]
      exact List.mem_map.mpr ⟨d, hd, rfl⟩
    have := h _ (List.mem_map.mpr ⟨d.device_type, ht, rfl⟩)
    simpa using this
  · intro h g hg
    rcases List.mem_map.mp hg with ⟨t, ht, rfl⟩
    rw [mem_dedupFirst] at ht
    simp only [List.map_map] at ht
    rcases List.mem_map.mp ht with ⟨d, hd, hdt⟩
    have hq := h d hd
    show Q t
    have : d.device_type = t := hdt
    rw [← this]
    exact hq

/-- C10: the provider-to-model lookup resolves tag 0 to the Apple-style model,
tag 1 to the Google-style model, and every other tag to `None`; consequently
the grouped bulk dispatch completes without error exactly when every device in
the input collection carries one of the two recognized provider tags. -/
theorem model_lookup_and_dispatch_defined :
    get_device_model_by_type Device.APNS = some DeviceModel.apns ∧
    get_device_model_by_type Device.GCM = some DeviceModel.gcm ∧
    (∀ t : Nat, t ≠ Device.APNS → t ≠ Device.GCM →
      get_device_model_by_type t = none) ∧
    (∀ (registry self : List Device) (m : Option String) (k : Kwargs),
      (DeviceQuerySet.send_message registry self m k).2 = none ↔
        ∀ d ∈ self, d.device_type = Device.APNS ∨ d.device_type = Device.GCM) := by
  refine ⟨rfl, rfl, ?_, ?_⟩
  · intro t h0 h1
    simp only [get_device_model_by_type, Device.APNS, Device.GCM, beq_iff_eq] at *
    split_ifs <;> simp_all
  · intro registry self m k
    by_cases hE : self.isEmpty
    · have hnil : self = [] := List.isEmpty_iff.mp hE
      subst hnil
      simp [DeviceQuerySet.send_message]
    · simp only [DeviceQuerySet.send_message, hE, Bool.false_eq_true, if_false]
      have h1 := dispatchGroups_err registry m k
        (groupByType (self.map (fun d => (d.pk, d.device_type))))
      have h2 := forall_groupByType_keys self
        (fun t => get_device_model_by_type t ≠ none)
      have h3 : (∀ d ∈ self, get_device_model_by_type d.device_type ≠ none) ↔
          (∀ d ∈ self, d.device_type = Device.APNS ∨ d.device_type = Device.GCM) := by
        constructor
        · intro h d hd
          exact (get_device_model_ne_none _).mp (h d hd)
        · intro h d hd
          exact (get_device_model_ne_none _).mpr (h d hd)
      exact h1.trans (h2.trans h3)

/-- C10 witness: tag 7 resolves to no model, and the dispatch-definedness
biconditional evaluated on a collection holding the tag-7 fixture device. -/
theorem model_lookup_and_dispatch_defined_witness :
    get_device_model_by_type 7 = none ∧
    ((DeviceQuerySet.send_message [devX] [devX] (some "hi") kw0).2 = none ↔
      ∀ d ∈ [devX], d.device_type = Device.APNS ∨ d.device_type = Device.GCM) :=
  ⟨model_lookup_and_dispatch_defined.2.2.1 7 (by decide) (by decide),
    model_lookup_and_dispatch_defined.2.2.2 [devX] [devX] (some "hi") kw0⟩

theorem pairs_bucket_ids (self : List Device) (t : Nat) :
    ((self.map (fun d => (d.pk, d.device_type))).filter (fun q => q.2 == t)).map
        (fun q => q.1) =
      (scopedByType self t).map (fun d => d.pk) := by
  induction self with
  | nil => rfl
  | cons d ds ih =>
    show (((d.pk, d.device_type) :: ds.map (fun d => (d.pk, d.device_type))).filter
        (fun q => q.2 == t)).map (fun q => q.1) = _
    rw [List.filter_cons]
    unfold scopedByType
    rw [List.filter_cons]
    rcases h : (d.device_type == t) with _ | _
    · simp only [h, Bool.false_eq_true, if_false]
      exact ih
    · simp only [h, if_true, List.map_cons]
      rw [ih]
      rfl

/-- C1 counterexample: a mixed two-device collection (one Apple-tagged, one
Google-tagged) produces two notification records, not one, and no created
record references all the original devices. -/
theorem mixed_bulk_single_record_counterexample :
    (createdNotifs
      (DeviceQuerySet.send_message [devA, devG] [devA, devG] (some "hi") kw0).1).length = 2 ∧
    ((createdNotifs
      (DeviceQuerySet.send_message [devA, devG] [devA, devG] (some "hi") kw0).1).length = 1 →
      False) ∧
    (∀ n ∈ createdNotifs
        (DeviceQuerySet.send_message [devA, devG] [devA, devG] (some "hi") kw0).1,
      ¬ (1 ∈ n.devices ∧ 2 ∈ n.devices)) := by
  decide

/-- C1 (amended): a mixed bulk send with at least one Apple-tagged and one
Google-tagged device (collection drawn from a device table with distinct pks,
every tag recognized) completes without error and produces exactly two
notification records — one per provider bucket, each referencing that bucket's
devices, together covering every original device — one Apple-style bulk call
with the active Apple devices' registration ids, one Google-style bulk call
with the active Google devices' registration ids, and no per-device calls. -/
theorem mixed_bulk_two_records :
    ∀ (registry self : List Device) (m : Option String) (k : Kwargs),
      self.Sublist registry →
      (registry.map (fun d => d.pk)).Nodup →
      (∀ d ∈ self, d.device_type = Device.APNS ∨ d.device_type = Device.GCM) →
      (∃ d ∈ self, d.device_type = Device.APNS) →
      (∃ d ∈ self, d.device_type = Device.GCM) →
      (DeviceQuerySet.send_message registry self m k).2 = none ∧
      ((DeviceQuerySet.send_message registry self m k).1 =
          [Event.createNotification (Notification.create_notification_for
              ((scopedByType self Device.APNS).map (fun d => d.pk)) m k),
            Event.providerCall (ProviderCall.apnsBulk
              (((scopedByType self Device.APNS).filter (fun d => d.active)).map
                (fun d => d.registration_id)) m k),
            Event.createNotification (Notification.create_notification_for
              ((scopedByType self Device.GCM).map (fun d => d.pk)) m k),
            Event.providerCall (ProviderCall.gcmBulk
              (((scopedByType self Device.GCM).filter (fun d => d.active)).map
                (fun d => d.registration_id))
              (gcmData m (k.extra.getD [])) (Kwargs.mk none k.rest))] ∨
        (DeviceQuerySet.send_message registry self m k).1 =
          [Event.createNotification (Notification.create_notification_for
              ((scopedByType self Device.GCM).map (fun d => d.pk)) m k),
            Event.providerCall (ProviderCall.gcmBulk
              (((scopedByType self Device.GCM).filter (fun d => d.active)).map
                (fun d => d.registration_id))
              (gcmData m (k.extra.getD [])) (Kwargs.mk none k.rest)),
            Event.createNotification (Notification.create_notification_for
              ((scopedByType self Device.APNS).map (fun d => d.pk)) m k),
            Event.providerCall (ProviderCall.apnsBulk
              (((scopedByType self Device.APNS).filter (fun d => d.active)).map
                (fun d => d.registration_id)) m k)]) ∧
      (∀ d ∈ self,
        d.pk ∈ (scopedByType self Device.APNS).map (fun d => d.pk) ∨
        d.pk ∈ (scopedByType self Device.GCM).map (fun d => d.pk)) := by
  intro registry self m k hsub hnd htypes ha hg
  obtain ⟨dA, hdA, htA⟩ := ha
  obtain ⟨dG, hdG, htG⟩ := hg
  have hne : self ≠ [] := by
    intro h
    subst h
    exact absurd hdA (by simp)
  have hE : self.isEmpty = false := by simp [List.isEmpty_iff, hne]
  have hmem0 : Device.APNS ∈ self.map (fun d => d.device_type) :=
    List.mem_map.mpr ⟨dA, hdA, htA⟩
  have hmem1 : Device.GCM ∈ self.map (fun d => d.device_type) :=
    List.mem_map.mpr ⟨dG, hdG, htG⟩
  have hall : ∀ x ∈ self.map (fun d => d.device_type),
      x = Device.APNS ∨ x = Device.GCM := by
    intro x hx
    rcases List.mem_map.mp hx with ⟨d, hd, rfl⟩
    exact htypes d hd
  have hmaps : (self.map (fun d => (d.pk, d.device_type))).map (fun p => p.2) =
      self.map (fun d => d.device_type) := by
    simp [List.map_map]
  have hreqA : modelScopedFilter registry DeviceModel.apns
      ((scopedByType self Device.APNS).map (fun d => d.pk)) =
      scopedByType self Device.APNS := by
    unfold modelScopedFilter
    exact scoped_requery registry self Device.APNS hsub hnd
  have hreqG : modelScopedFilter registry DeviceModel.gcm
      ((scopedByType self Device.GCM).map (fun d => d.pk)) =
      scopedByType self Device.GCM := by
    unfold modelScopedFilter
    exact scoped_requery registry self Device.GCM hsub hnd
  have hSA : scopedByType self Device.APNS ≠ [] := by
    intro hnil
    have hmem : dA ∈ scopedByType self Device.APNS :=
      List.mem_filter.mpr ⟨hdA, by simp [htA]⟩
    rw [hnil] at hmem
    exact absurd hmem (by simp)
  have hSG : scopedByType self Device.GCM ≠ [] := by
    intro hnil
    have hmem : dG ∈ scopedByType self Device.GCM :=
      List.mem_filter.mpr ⟨hdG, by simp [htG]⟩
    rw [hnil] at hmem
    exact absurd hmem (by simp)
  have hSAE : (scopedByType self Device.APNS).isEmpty = false := by
    simp [List.isEmpty_iff, hSA]
  have hSGE : (scopedByType self Device.GCM).isEmpty = false := by
    simp [List.isEmpty_iff, hSG]
  have hbA : modelBulkSend DeviceModel.apns (scopedByType self Device.APNS) m k =
      ([Event.createNotification (Notification.create_notification_for
          ((scopedByType self Device.APNS).map (fun d => d.pk)) m k),
        Event.providerCall (ProviderCall.apnsBulk
          (((scopedByType self Device.APNS).filter (fun d => d.active)).map
            (fun d => d.registration_id)) m k)],
      some (ProviderCall.apnsBulk
        (((scopedByType self Device.APNS).filter (fun d => d.active)).map
          (fun d => d.registration_id)) m k)) := by
    simp [modelBulkSend, APNSDeviceQuerySet.send_message, hSAE]
  have hbG : modelBulkSend DeviceModel.gcm (scopedByType self Device.GCM) m k =
      ([Event.createNotification (Notification.create_notification_for
          ((scopedByType self Device.GCM).map (fun d => d.pk)) m k),
        Event.providerCall (ProviderCall.gcmBulk
          (((scopedByType self Device.GCM).filter (fun d => d.active)).map
            (fun d => d.registration_id))
          (gcmData m (k.extra.getD [])) (Kwargs.mk none k.rest))],
      some (ProviderCall.gcmBulk
        (((scopedByType self Device.GCM).filter (fun d => d.active)).map
          (fun d => d.registration_id))
        (gcmData m (k.extra.getD [])) (Kwargs.mk none k.rest))) := by
    simp [modelBulkSend, GCMDeviceQuerySet.send_message, hSGE]
  have hcover : ∀ d ∈ self,
      d.pk ∈ (scopedByType self Device.APNS).map (fun d => d.pk) ∨
      d.pk ∈ (scopedByType self Device.GCM).map (fun d => d.pk) := by
    intro d hd
    rcases htypes d hd with ht | ht
    · left
      exact List.mem_map.mpr ⟨d, List.mem_filter.mpr ⟨hd, by simp [ht]⟩, rfl⟩
    · right
      exact List.mem_map.mpr ⟨d, List.mem_filter.mpr ⟨hd, by simp [ht]⟩, rfl⟩
  rcases dedupFirst_types01 (self.map (fun d => d.device_type)) hall hmem0 hmem1 with
    hd01 | hd10
  · have hgroup : groupByType (self.map (fun d => (d.pk, d.device_type))) =
        [(Device.APNS, (scopedByType self Device.APNS).map (fun d => d.pk)),
        (Device.GCM, (scopedByType self Device.GCM).map (fun d => d.pk))] := by
      rw [groupByType_eq_bucketsOf]
      unfold bucketsOf
      rw [hmaps, hd01]
      simp only [List.map_cons, List.map_nil]
      rw [pairs_bucket_ids, pairs_bucket_ids]
    have hfinal : DeviceQuerySet.send_message registry self m k =
        ([Event.createNotification (Notification.create_notification_for
            ((scopedByType self Device.APNS).map (fun d => d.pk)) m k),
          Event.providerCall (ProviderCall.apnsBulk
            (((scopedByType self Device.APNS).filter (fun d => d.active)).map
              (fun d => d.registration_id)) m k),
          Event.createNotification (Notification.create_notification_for
            ((scopedByType self Device.GCM).map (fun d => d.pk)) m k),
          Event.providerCall (ProviderCall.gcmBulk
            (((scopedByType self Device.GCM).filter (fun d => d.active)).map
              (fun d => d.registration_id))
            (gcmData m (k.extra.getD [])) (Kwargs.mk none k.rest))], none) := by
      simp only [DeviceQuerySet.send_message, hE, Bool.false_eq_true, if_false, hgroup]
      rw [dispatchGroups_cons registry m k
        (Device.APNS, (scopedByType self Device.APNS).map (fun d => d.pk))
        [(Device.GCM, (scopedByType self Device.GCM).map (fun d => d.pk))]
        DeviceModel.apns rfl]
      rw [dispatchGroups_cons registry m k
        (Device.GCM, (scopedByType self Device.GCM).map (fun d => d.pk))
        [] DeviceModel.gcm rfl]
      rw [dispatchGroups_nil]
      simp only [hreqA, hreqG, hbA, hbG]
      rfl
    rw [hfinal]
    exact ⟨rfl, Or.inl rfl, hcover⟩
  · have hgroup : groupByType (self.map (fun d => (d.pk, d.device_type))) =
        [(Device.GCM, (scopedByType self Device.GCM).map (fun d => d.pk)),
        (Device.APNS, (scopedByType self Device.APNS).map (fun d => d.pk))] := by
      rw [groupByType_eq_bucketsOf]
      unfold bucketsOf
      rw [hmaps, hd10]
      simp only [List.map_cons, List.map_nil]
      rw [pairs_bucket_ids, pairs_bucket_ids]
    have hfinal : DeviceQuerySet.send_message registry self m k =
        ([Event.createNotification (Notification.create_notification_for
            ((scopedByType self Device.GCM).map (fun d => d.pk)) m k),
          Event.providerCall (ProviderCall.gcmBulk
            (((scopedByType self Device.GCM).filter (fun d => d.active)).map
              (fun d => d.registration_id))
            (gcmData m (k.extra.getD [])) (Kwargs.mk none k.rest)),
          Event.createNotification (Notification.create_notification_for
            ((scopedByType self Device.APNS).map (fun d => d.pk)) m k),
          Event.providerCall (ProviderCall.apnsBulk
            (((scopedByType self Device.APNS).filter (fun d => d.active)).map
              (fun d => d.registration_id)) m k)], none) := by
      simp only [DeviceQuerySet.send_message, hE, Bool.false_eq_true, if_false, hgroup]
      rw [dispatchGroups_cons registry m k
        (Device.GCM, (scopedByType self Device.GCM).map (fun d => d.pk))
        [(Device.APNS, (scopedByType self Device.APNS).map (fun d => d.pk))]
        DeviceModel.gcm rfl]
      rw [dispatchGroups_cons registry m k
        (Device.APNS, (scopedByType self Device.APNS).map (fun d => d.pk))
        [] DeviceModel.apns rfl]
      rw [dispatchGroups_nil]
      simp only [hreqA, hreqG, hbA, hbG]
      rfl
    rw [hfinal]
    exact ⟨rfl, Or.inr rfl, hcover⟩

/-- C1 amended-claim witness: the two-fixture mixed collection used as both
the collection and the table. -/
theorem mixed_bulk_two_records_witness :
    (([devA, devG] : List Device).Sublist [devA, devG] ∧
      (([devA, devG] : List Device).map (fun d => d.pk)).Nodup ∧
      (∀ d ∈ ([devA, devG] : List Device),
        d.device_type = Device.APNS ∨ d.device_type = Device.GCM) ∧
      (∃ d ∈ ([devA, devG] : List Device), d.device_type = Device.APNS) ∧
      (∃ d ∈ ([devA, devG] : List Device), d.device_type = Device.GCM)) ∧
    ((DeviceQuerySet.send_message [devA, devG] [devA, devG] (some "hi") kw0).2 = none ∧
      ((DeviceQuerySet.send_message [devA, devG] [devA, devG] (some "hi") kw0).1 =
          [Event.createNotification (Notification.create_notification_for
              ((scopedByType [devA, devG] Device.APNS).map (fun d => d.pk)) (some "hi") kw0),
            Event.providerCall (ProviderCall.apnsBulk
              (((scopedByType [devA, devG] Device.APNS).filter (fun d => d.active)).map
                (fun d => d.registration_id)) (some "hi") kw0),
            Event.createNotification (Notification.create_notification_for
              ((scopedByType [devA, devG] Device.GCM).map (fun d => d.pk)) (some "hi") kw0),
            Event.providerCall (ProviderCall.gcmBulk
              (((scopedByType [devA, devG] Device.GCM).filter (fun d => d.active)).map
                (fun d => d.registration_id))
              (gcmData (some "hi") (kw0.extra.getD [])) (Kwargs.mk none kw0.rest))] ∨
        (DeviceQuerySet.send_message [devA, devG] [devA, devG] (some "hi") kw0).1 =
          [Event.createNotification (Notification.create_notification_for
              ((scopedByType [devA, devG] Device.GCM).map (fun d => d.pk)) (some "hi") kw0),
            Event.providerCall (ProviderCall.gcmBulk
              (((scopedByType [devA, devG] Device.GCM).filter (fun d => d.active)).map
                (fun d => d.registration_id))
              (gcmData (some "hi") (kw0.extra.getD [])) (Kwargs.mk none kw0.rest)),
            Event.createNotification (Notification.create_notification_for
              ((scopedByType [devA, devG] Device.APNS).map (fun d => d.pk)) (some "hi") kw0),
            Event.providerCall (ProviderCall.apnsBulk
              (((scopedByType [devA, devG] Device.APNS).filter (fun d => d.active)).map
                (fun d => d.registration_id)) (some "hi") kw0)]) ∧
      (∀ d ∈ ([devA, devG] : List Device),
        d.pk ∈ (scopedByType [devA, devG] Device.APNS).map (fun d => d.pk) ∨
        d.pk ∈ (scopedByType [devA, devG] Device.GCM).map (fun d => d.pk))) :=
  ⟨⟨List.Sublist.refl _, by decide, by decide, by decide, by decide⟩,
    mixed_bulk_two_records [devA, devG] [devA, devG] (some "hi") kw0
      (List.Sublist.refl _) (by decide) (by decide) (by decide) (by decide)⟩

end PushNotifications
